import Mathlib

/-!
Verification of the arducam-usbcam-record recorder scripts.

The development shallowly embeds the parts of the Python sources that the
testable properties of the spec talk about:

* the depth-sample conversion `(buf / (1 << 4)).astype(np.uint8)`
  (sync_frame_recorder.py line 121, dual_camera_recorder.py line 96);
* the per-cycle body of `SyncFrameRecorder.record_synchronized_frames`
  (sync_frame_recorder.py lines 102-194) as a step function over a loop
  state, driven by a trace of per-cycle acquisition outcomes;
* the session summary computation (sync_frame_recorder.py lines 206-230);
* the ToF recording thread of `DualCameraRecorder._record_tof_thread`
  (dual_camera_recorder.py lines 76-127);
* `SyncFrameRecorder.close` (sync_frame_recorder.py lines 235-243);
* `SyncFrameRecorder.initialize_cameras` (sync_frame_recorder.py lines 20-74);
* `detect_cameras` (usb_recorder.py lines 6-36).
-/

namespace ArducamRecord

/-- Depth-sample conversion to 8 bits, from
`buf_8bit = (buf / (1 << 4)).astype(np.uint8)`.  The raw buffer holds
unsigned 16-bit samples; float division by 16 followed by the cast to
`np.uint8` truncates the quotient and reduces it modulo 256. -/
def to8bit (v : Nat) : Nat := (v / 16) % 256

/-- Outcome of one `self.tof_camera.requestFrame(200)` call inside the sync
loop (sync_frame_recorder.py lines 113-133). -/
inductive TofOutcome where
  | rawData (buf : List Nat)
  | wrongType
  | nullFrame
  | exn
deriving DecidableEq

/-- What the ToF acquisition block of the sync loop leaves behind:
the `tof_success` flag, the converted `tof_frame`, how many times
`releaseFrame` ran, and whether `requestFrame` handed over a frame object. -/
structure TofAcq where
  tofSuccess : Bool
  tofFrame : Option (List Nat)
  releaseCalls : Nat
  frameAcquired : Bool
deriving DecidableEq

/-- The ToF acquisition block (sync_frame_recorder.py lines 113-133).
`releaseFrame` runs only on the branch that passed the
`isinstance(ac_frame, ac.RawData)` check; a caught exception or a `None`
return leaves `tof_success` false. -/
def acquireTofSync : TofOutcome → TofAcq
  | TofOutcome.rawData buf => ⟨true, some (buf.map to8bit), 1, true⟩
  | TofOutcome.wrongType   => ⟨false, none, 0, true⟩
  | TofOutcome.nullFrame   => ⟨false, none, 0, false⟩
  | TofOutcome.exn         => ⟨false, none, 0, false⟩

/-- Outcome of one `self.usb_camera.read()` call inside the sync loop
(sync_frame_recorder.py lines 138-145). `readFail` covers `ret` false or a
`None` frame. -/
inductive UsbOutcome where
  | frame (data : List Nat)
  | readFail
  | exn
deriving DecidableEq

/-- The USB acquisition block of the sync loop: the `usb_success` flag and
the frame, mirroring lines 138-145. -/
def usbAcq : UsbOutcome → Bool × Option (List Nat)
  | UsbOutcome.frame d => (true, some d)
  | UsbOutcome.readFail => (false, none)
  | UsbOutcome.exn => (false, none)

/-- One iteration of the sync loop is driven by the pair of acquisition
outcomes. -/
def SyncCycle := TofOutcome × UsbOutcome

instance : DecidableEq SyncCycle := by
  unfold SyncCycle
  infer_instance

/-- The mutable locals of `record_synchronized_frames`
(sync_frame_recorder.py lines 87-95) that the loop body updates, with the
two lazily created `cv2.VideoWriter`s tracked by an open flag and a count
of frames written to each. -/
structure LoopState where
  frameCount : Nat
  syncFailures : Nat
  tofFailures : Nat
  usbFailures : Nat
  bothFailures : Nat
  tofWriterOpen : Bool
  usbWriterOpen : Bool
  tofWritten : Nat
  usbWritten : Nat
deriving DecidableEq

/-- Locals at loop entry: all counters zero, both writers `None`. -/
def initLoopState : LoopState := ⟨0, 0, 0, 0, 0, false, false, 0, 0⟩

/-- One iteration of the sync loop body (sync_frame_recorder.py lines
102-188): acquire from both sources; if both succeeded, lazily create the
writers and write both frames and bump `frame_count`; otherwise bump
`sync_failures` and exactly the sub-counter picked by the
`if not tof and not usb / elif not tof / elif not usb` chain. -/
def syncStep (s : LoopState) (c : SyncCycle) : LoopState :=
  let tofA := acquireTofSync c.1
  let usbA := usbAcq c.2
  let tofSuccess := tofA.tofSuccess
  let usbSuccess := usbA.1
  let tofFrame := tofA.tofFrame
  let usbFrame := usbA.2
  if tofSuccess && usbSuccess then
    let tofOpen := s.tofWriterOpen || tofFrame.isSome
    let usbOpen := s.usbWriterOpen || usbFrame.isSome
    { s with
      tofWriterOpen := tofOpen
      usbWriterOpen := usbOpen
      tofWritten := if tofOpen && tofFrame.isSome then s.tofWritten + 1 else s.tofWritten
      usbWritten := if usbOpen && usbFrame.isSome then s.usbWritten + 1 else s.usbWritten
      frameCount := s.frameCount + 1 }
  else
    { s with
      syncFailures := s.syncFailures + 1
      bothFailures :=
        if !tofSuccess && !usbSuccess then s.bothFailures + 1 else s.bothFailures
      tofFailures :=
        if !(!tofSuccess && !usbSuccess) && !tofSuccess then s.tofFailures + 1
        else s.tofFailures
      usbFailures :=
        if !(!tofSuccess && !usbSuccess) && !(!tofSuccess) && !usbSuccess then
          s.usbFailures + 1
        else s.usbFailures }

/-- Run the sync loop body over a trace of cycles from a given state. -/
def runSyncFrom (s : LoopState) : List SyncCycle → LoopState
  | [] => s
  | c :: rest => runSyncFrom (syncStep s c) rest

/-- Run the sync loop over a trace of cycles from loop entry. -/
def runSync (t : List SyncCycle) : LoopState := runSyncFrom initLoopState t

/-- The `tof_success` flag of a cycle. -/
def tofSucc (c : SyncCycle) : Bool := (acquireTofSync c.1).tofSuccess

/-- The `usb_success` flag of a cycle. -/
def usbSucc (c : SyncCycle) : Bool := (usbAcq c.2).1

/-- A cycle is matched when both acquisitions succeeded. -/
def cycleMatched (c : SyncCycle) : Bool := tofSucc c && usbSucc c

/-- Both sources failed in the cycle. -/
def bothFailed (c : SyncCycle) : Bool := !tofSucc c && !usbSucc c

/-- Only the ToF source failed in the cycle. -/
def tofOnlyFailed (c : SyncCycle) : Bool := !tofSucc c && usbSucc c

/-- Only the USB source failed in the cycle. -/
def usbOnlyFailed (c : SyncCycle) : Bool := tofSucc c && !usbSucc c

/-- Number of matched cycles in a trace. -/
def matchedCount (t : List SyncCycle) : Nat := t.countP (fun c => cycleMatched c)

/-- Number of failed cycles in a trace. -/
def failedCount (t : List SyncCycle) : Nat := t.countP (fun c => !cycleMatched c)

/-- The fields of the result dictionary built at the end of
`record_synchronized_frames` (sync_frame_recorder.py lines 206-230) that
the summary computes from the counters. -/
structure SessionSummary where
  frameCount : Nat
  syncFailures : Nat
  fps : ℚ
  syncSuccessRate : ℚ
deriving DecidableEq

/-- The summary computation (sync_frame_recorder.py lines 206-208):
`fps = frame_count / elapsed_time if elapsed_time > 0 else 0` and
`sync_success_rate = (frame_count / (frame_count + sync_failures)) * 100
if (frame_count + sync_failures) > 0 else 0`. -/
def mkSummary (s : LoopState) (elapsed : ℚ) : SessionSummary :=
  { frameCount := s.frameCount
    syncFailures := s.syncFailures
    fps := if 0 < elapsed then (s.frameCount : ℚ) / elapsed else 0
    syncSuccessRate :=
      if 0 < s.frameCount + s.syncFailures then
        ((s.frameCount : ℚ) / ((s.frameCount : ℚ) + (s.syncFailures : ℚ))) * 100
      else 0 }

/-- One iteration of `DualCameraRecorder._record_tof_thread`
(dual_camera_recorder.py lines 89-110): the `requestFrame` call delivered a
usable RawData frame, delivered nothing usable, or some call in the
iteration raised. -/
inductive TofThreadEvent where
  | frame
  | miss
  | raiseExc
deriving DecidableEq

/-- Observable state of the ToF recording thread: whether the lazily
created writer exists, how many times `writer.release()` ran, how many
frames were written, and whether the `except` handler fired. -/
structure TofThreadState where
  writerOpen : Bool
  releaseCalls : Nat
  frameCount : Nat
  errored : Bool
deriving DecidableEq

/-- The body of `_record_tof_thread` (dual_camera_recorder.py lines 77-127):
the while loop processes events; an exception anywhere in the `try` jumps
to the `except` handler at line 125, which records the error and returns —
the `if writer: writer.release()` at lines 112-113 sits inside the `try`
after the loop, so it runs only when the loop ends without raising. -/
def tofThreadLoop (s : TofThreadState) : List TofThreadEvent → TofThreadState
  | [] =>
    if s.writerOpen then { s with releaseCalls := s.releaseCalls + 1 } else s
  | e :: rest =>
    match e with
    | TofThreadEvent.frame =>
      tofThreadLoop { s with writerOpen := true, frameCount := s.frameCount + 1 } rest
    | TofThreadEvent.miss => tofThreadLoop s rest
    | TofThreadEvent.raiseExc => { s with errored := true }

/-- Run the ToF recording thread from its initial state
(`writer = None`, `frame_count = 0`). -/
def runTofThread (events : List TofThreadEvent) : TofThreadState :=
  tofThreadLoop ⟨false, 0, 0, false⟩ events

/-- The ToF camera handle as seen through the calls the recorder makes on
it: how many times `stop()` and `close()` have been invoked. -/
structure TofHandle where
  stopCalls : Nat
  closeCalls : Nat
deriving DecidableEq

/-- The USB camera handle: how many times `release()` has been invoked. -/
structure UsbHandle where
  releaseCalls : Nat
deriving DecidableEq

/-- The attributes of a `SyncFrameRecorder` that the shutdown sequence
touches (sync_frame_recorder.py lines 14-18, 232-243). -/
structure RecorderState where
  isRecording : Bool
  tofCamera : Option TofHandle
  usbCamera : Option UsbHandle
deriving DecidableEq

/-- `SyncFrameRecorder.stop_recording` (sync_frame_recorder.py line 233). -/
def stopRecording (s : RecorderState) : RecorderState :=
  { s with isRecording := false }

/-- `SyncFrameRecorder.close` (sync_frame_recorder.py lines 235-243):
`stop_recording()`, then `if self.tof_camera: stop(); close()` and
`if self.usb_camera: release()`.  The attributes are never cleared to
`None`, so the guards see the same handles on a repeated call. -/
def closeRecorder (s : RecorderState) : RecorderState :=
  let s1 := stopRecording s
  { s1 with
    tofCamera :=
      match s1.tofCamera with
      | some h => some ⟨h.stopCalls + 1, h.closeCalls + 1⟩
      | none => none
    usbCamera :=
      match s1.usbCamera with
      | some h => some ⟨h.releaseCalls + 1⟩
      | none => none }

/-- Environment that `SyncFrameRecorder.initialize_cameras` runs against:
the return codes of the ToF `open` and `start` calls and whether the USB
`cv2.VideoCapture` reports `isOpened()`. -/
structure InitEnv where
  tofOpenRet : Int
  tofStartRet : Int
  usbOpens : Bool
deriving DecidableEq

/-- The error surfaced by `initialize_cameras` when a device fails. -/
inductive InitError where
  | tofOpenFailed
  | tofStartFailed
  | usbOpenFailed
deriving DecidableEq

/-- What an `initialize_cameras` run leaves behind: the surfaced error
(`none` means both cameras came up) and the `stop`/`close` calls made on
the ToF handle along the way. -/
structure InitOutcome where
  surfaced : Option InitError
  tofStopCalls : Nat
  tofCloseCalls : Nat
deriving DecidableEq

/-- `SyncFrameRecorder.initialize_cameras` (sync_frame_recorder.py lines
20-74): open and start the ToF camera, raising on a nonzero return code
(`start` failure closes the camera first, line 35); then open the USB
camera, and on failure the `except` handler at lines 66-71 calls
`tof_camera.stop()` and `tof_camera.close()` before re-raising. -/
def initCameras (env : InitEnv) : InitOutcome :=
  if env.tofOpenRet ≠ 0 then ⟨some InitError.tofOpenFailed, 0, 0⟩
  else if env.tofStartRet ≠ 0 then ⟨some InitError.tofStartFailed, 0, 1⟩
  else if !env.usbOpens then ⟨some InitError.usbOpenFailed, 1, 1⟩
  else ⟨none, 0, 0⟩

/-- One probe target of `detect_cameras` (usb_recorder.py lines 11-29):
whether `cv2.VideoCapture(i).isOpened()` holds, whether `cap.read()`
returned `ret = True`, and whether the returned frame was not `None`. -/
structure ProbeDevice where
  opened : Bool
  readRet : Bool
  frameSome : Bool
deriving DecidableEq

/-- A probed index is appended to `available_cameras` exactly when the
nested checks `if cap.isOpened():` and `if ret and frame is not None:`
both pass (usb_recorder.py lines 13-19). -/
def probeAppends (d : ProbeDevice) : Bool :=
  if d.opened then (if d.readRet && d.frameSome then true else false) else false

/-- `detect_cameras(max_index)` (usb_recorder.py lines 6-36): iterate
`for i in range(max_index)`, appending working indices; `cap.release()`
runs at the end of every iteration regardless of the probe outcome.  The
first component is `available_cameras`; the second lists the index of each
`release()` call in order. -/
def detectCameras (env : Nat → ProbeDevice) (maxIndex : Nat) :
    List Nat × List Nat :=
  (List.range maxIndex).foldl
    (fun acc i =>
      (if probeAppends (env i) then acc.1 ++ [i] else acc.1, acc.2 ++ [i]))
    ([], [])

/-- A matched demo cycle: the ToF request hands over a RawData frame and
the USB read succeeds. -/
def demoCycleMatched : SyncCycle :=
  (TofOutcome.rawData [3200, 15, 4000], UsbOutcome.frame [7])

/-- A demo cycle where the ToF request raised and the USB read failed. -/
def demoCycleExn : SyncCycle := (TofOutcome.exn, UsbOutcome.readFail)

/-- A demo trace with one matched cycle and two failed ones. -/
def demoTrace : List SyncCycle :=
  [demoCycleMatched, demoCycleExn, (TofOutcome.wrongType, UsbOutcome.frame [1])]

/-- A demo probe environment: devices 0 and 2 work, device 1 opens but
cannot read, every other index does not open. -/
def demoProbeEnv : Nat → ProbeDevice
  | 0 => ⟨true, true, true⟩
  | 1 => ⟨true, false, true⟩
  | 2 => ⟨true, true, true⟩
  | _ => ⟨false, false, false⟩

/-- A demo recorder state with both cameras initialized and untouched. -/
def demoRecorder : RecorderState := ⟨true, some ⟨0, 0⟩, some ⟨0⟩⟩

lemma syncStep_deltas (s : LoopState) (c : SyncCycle) :
    (syncStep s c).frameCount = s.frameCount + (if cycleMatched c then 1 else 0) ∧
    (syncStep s c).syncFailures = s.syncFailures + (if cycleMatched c then 0 else 1) ∧
    (syncStep s c).tofWritten = s.tofWritten + (if cycleMatched c then 1 else 0) ∧
    (syncStep s c).usbWritten = s.usbWritten + (if cycleMatched c then 1 else 0) ∧
    (syncStep s c).bothFailures = s.bothFailures + (if bothFailed c then 1 else 0) ∧
    (syncStep s c).tofFailures = s.tofFailures + (if tofOnlyFailed c then 1 else 0) ∧
    (syncStep s c).usbFailures = s.usbFailures + (if usbOnlyFailed c then 1 else 0) := by
  obtain ⟨t, u⟩ := c
  cases t <;> cases u <;>
    simp [syncStep, acquireTofSync, usbAcq, cycleMatched, tofSucc, usbSucc,
      bothFailed, tofOnlyFailed, usbOnlyFailed]

lemma matchedCount_cons (c : SyncCycle) (t : List SyncCycle) :
    matchedCount (c :: t) = matchedCount t + (if cycleMatched c then 1 else 0) := by
  simp [matchedCount, List.countP_cons]

lemma failedCount_cons (c : SyncCycle) (t : List SyncCycle) :
    failedCount (c :: t) = failedCount t + (if cycleMatched c then 0 else 1) := by
  cases h : cycleMatched c <;> simp [failedCount, List.countP_cons, h]

lemma runSyncFrom_counts (t : List SyncCycle) : ∀ s : LoopState,
    (runSyncFrom s t).frameCount = s.frameCount + matchedCount t ∧
    (runSyncFrom s t).syncFailures = s.syncFailures + failedCount t ∧
    (runSyncFrom s t).tofWritten = s.tofWritten + matchedCount t ∧
    (runSyncFrom s t).usbWritten = s.usbWritten + matchedCount t ∧
    (runSyncFrom s t).bothFailures
      = s.bothFailures + t.countP (fun c => bothFailed c) ∧
    (runSyncFrom s t).tofFailures
      = s.tofFailures + t.countP (fun c => tofOnlyFailed c) ∧
    (runSyncFrom s t).usbFailures
      = s.usbFailures + t.countP (fun c => usbOnlyFailed c) := by
  induction t with
  | nil =>
    intro s
    simp [runSyncFrom, matchedCount, failedCount]
  | cons c rest ih =>
    intro s
    obtain ⟨h1, h2, h3, h4, h5, h6, h7⟩ := ih (syncStep s c)
    obtain ⟨d1, d2, d3, d4, d5, d6, d7⟩ := syncStep_deltas s c
    refine ⟨?_, ?_, ?_, ?_, ?_, ?_, ?_⟩ <;>
      simp only [runSyncFrom, matchedCount_cons, failedCount_cons, List.countP_cons,
        h1, h2, h3, h4, h5, h6, h7, d1, d2, d3, d4, d5, d6, d7] <;>
      omega

lemma matched_add_failed (t : List SyncCycle) :
    matchedCount t + failedCount t = t.length := by
  induction t with
  | nil => simp [matchedCount, failedCount]
  | cons c rest ih =>
    rw [matchedCount_cons, failedCount_cons, List.length_cons]
    cases h : cycleMatched c <;> simp [h] <;> omega

lemma failure_split (t : List SyncCycle) :
    t.countP (fun c => bothFailed c) + t.countP (fun c => tofOnlyFailed c)
      + t.countP (fun c => usbOnlyFailed c) = failedCount t := by
  induction t with
  | nil => simp [failedCount]
  | cons c rest ih =>
    have hc : (if bothFailed c then 1 else 0) + (if tofOnlyFailed c then 1 else 0)
        + (if usbOnlyFailed c then 1 else 0)
        = (if cycleMatched c then 0 else 1) := by
      cases ht : tofSucc c <;> cases hu : usbSucc c <;>
        simp [bothFailed, tofOnlyFailed, usbOnlyFailed, cycleMatched, ht, hu]
    simp only [List.countP_cons, failedCount_cons]
    omega

lemma runSync_counts (t : List SyncCycle) :
    (runSync t).frameCount = matchedCount t ∧
    (runSync t).syncFailures = failedCount t ∧
    (runSync t).tofWritten = matchedCount t ∧
    (runSync t).usbWritten = matchedCount t ∧
    (runSync t).bothFailures = t.countP (fun c => bothFailed c) ∧
    (runSync t).tofFailures = t.countP (fun c => tofOnlyFailed c) ∧
    (runSync t).usbFailures = t.countP (fun c => usbOnlyFailed c) := by
  obtain ⟨h1, h2, h3, h4, h5, h6, h7⟩ := runSyncFrom_counts t initLoopState
  rw [runSync]
  refine ⟨?_, ?_, ?_, ?_, ?_, ?_, ?_⟩
  · rw [h1]; simp [initLoopState]
  · rw [h2]; simp [initLoopState]
  · rw [h3]; simp [initLoopState]
  · rw [h4]; simp [initLoopState]
  · rw [h5]; simp [initLoopState]
  · rw [h6]; simp [initLoopState]
  · rw [h7]; simp [initLoopState]

lemma runSync_total (t : List SyncCycle) :
    (runSync t).frameCount + (runSync t).syncFailures = t.length := by
  obtain ⟨h1, h2, _⟩ := runSync_counts t
  rw [h1, h2]
  exact matched_add_failed t

/-- Claim C1: in the synchronized recording loop a frame is written to a
sink exactly when both acquisitions succeeded in that cycle, no sink
receives a frame in a failed cycle, and over any trace both sinks have
received exactly as many frames as the matched-cycle counter. -/
theorem sync_sink_writes_iff_matched (s : LoopState) (c : SyncCycle)
    (t : List SyncCycle) :
    ((syncStep s c).tofWritten = s.tofWritten + 1 ↔ cycleMatched c = true) ∧
    ((syncStep s c).usbWritten = s.usbWritten + 1 ↔ cycleMatched c = true) ∧
    (cycleMatched c = false →
      (syncStep s c).tofWritten = s.tofWritten ∧
      (syncStep s c).usbWritten = s.usbWritten) ∧
    (runSync t).tofWritten = (runSync t).frameCount ∧
    (runSync t).usbWritten = (runSync t).frameCount ∧
    (runSync t).frameCount = matchedCount t := by
  obtain ⟨d1, d2, d3, d4, d5, d6, d7⟩ := syncStep_deltas s c
  obtain ⟨h1, h2, h3, h4, h5, h6, h7⟩ := runSync_counts t
  refine ⟨?_, ?_, ?_, ?_, ?_, ?_⟩
  · rw [d3]; cases h : cycleMatched c <;> simp
  · rw [d4]; cases h : cycleMatched c <;> simp
  · intro h; rw [d3, d4, h]; simp
  · rw [h3, h1]
  · rw [h4, h1]
  · exact h1

/-- Witness for claim C1 at a concrete matched cycle and a concrete trace
with one matched and two failed cycles. -/
theorem sync_sink_writes_iff_matched_witness :
    (syncStep initLoopState demoCycleMatched).tofWritten
      = initLoopState.tofWritten + 1 ∧
    (runSync demoTrace).tofWritten = (runSync demoTrace).frameCount ∧
    (runSync demoTrace).frameCount = matchedCount demoTrace ∧
    matchedCount demoTrace = 1 :=
  ⟨(sync_sink_writes_iff_matched initLoopState demoCycleMatched demoTrace).1.mpr
      (by decide),
   (sync_sink_writes_iff_matched initLoopState demoCycleMatched demoTrace).2.2.2.1,
   (sync_sink_writes_iff_matched initLoopState demoCycleMatched demoTrace).2.2.2.2.2,
   by decide⟩

/-- Claim C2: over any trace matched plus failed cycles equal the number of
cycles attempted, the three failure sub-counters sum to the failure
counter, and a failed cycle increments exactly one of the three mutually
exclusive sub-counters. -/
theorem sync_counter_invariants (s : LoopState) (c : SyncCycle)
    (t : List SyncCycle) :
    (runSync t).frameCount + (runSync t).syncFailures = t.length ∧
    (runSync t).tofFailures + (runSync t).usbFailures + (runSync t).bothFailures
      = (runSync t).syncFailures ∧
    (cycleMatched c = false →
      ((syncStep s c).bothFailures = s.bothFailures + 1 ∧
        (syncStep s c).tofFailures = s.tofFailures ∧
        (syncStep s c).usbFailures = s.usbFailures) ∨
      ((syncStep s c).tofFailures = s.tofFailures + 1 ∧
        (syncStep s c).bothFailures = s.bothFailures ∧
        (syncStep s c).usbFailures = s.usbFailures) ∨
      ((syncStep s c).usbFailures = s.usbFailures + 1 ∧
        (syncStep s c).bothFailures = s.bothFailures ∧
        (syncStep s c).tofFailures = s.tofFailures)) := by
  obtain ⟨h1, h2, h3, h4, h5, h6, h7⟩ := runSync_counts t
  refine ⟨runSync_total t, ?_, ?_⟩
  · have hs := failure_split t
    rw [h2, h5, h6, h7]
    omega
  · intro h
    obtain ⟨d1, d2, d3, d4, d5, d6, d7⟩ := syncStep_deltas s c
    cases ht : tofSucc c <;> cases hu : usbSucc c
    · left
      simp [bothFailed, tofOnlyFailed, usbOnlyFailed, ht, hu] at d5 d6 d7
      exact ⟨d5, d6, d7⟩
    · right; left
      simp [bothFailed, tofOnlyFailed, usbOnlyFailed, ht, hu] at d5 d6 d7
      exact ⟨d6, d5, d7⟩
    · right; right
      simp [bothFailed, tofOnlyFailed, usbOnlyFailed, ht, hu] at d5 d6 d7
      exact ⟨d7, d5, d6⟩
    · exfalso
      rw [cycleMatched, ht, hu] at h
      simp at h

/-- Witness for claim C2 at a concrete trace and a concrete cycle where
both sources failed. -/
theorem sync_counter_invariants_witness :
    (runSync demoTrace).frameCount + (runSync demoTrace).syncFailures
      = demoTrace.length ∧
    (runSync demoTrace).tofFailures + (runSync demoTrace).usbFailures
        + (runSync demoTrace).bothFailures = (runSync demoTrace).syncFailures ∧
    (((syncStep initLoopState demoCycleExn).bothFailures
          = initLoopState.bothFailures + 1 ∧
        (syncStep initLoopState demoCycleExn).tofFailures
          = initLoopState.tofFailures ∧
        (syncStep initLoopState demoCycleExn).usbFailures
          = initLoopState.usbFailures) ∨
      ((syncStep initLoopState demoCycleExn).tofFailures
          = initLoopState.tofFailures + 1 ∧
        (syncStep initLoopState demoCycleExn).bothFailures
          = initLoopState.bothFailures ∧
        (syncStep initLoopState demoCycleExn).usbFailures
          = initLoopState.usbFailures) ∨
      ((syncStep initLoopState demoCycleExn).usbFailures
          = initLoopState.usbFailures + 1 ∧
        (syncStep initLoopState demoCycleExn).bothFailures
          = initLoopState.bothFailures ∧
        (syncStep initLoopState demoCycleExn).tofFailures
          = initLoopState.tofFailures)) :=
  ⟨(sync_counter_invariants initLoopState demoCycleExn demoTrace).1,
   (sync_counter_invariants initLoopState demoCycleExn demoTrace).2.1,
   (sync_counter_invariants initLoopState demoCycleExn demoTrace).2.2 (by decide)⟩

/-- Claim C5: an exception or timeout during either acquisition is turned
into the failure classification of that cycle, and the loop keeps processing
the rest of the trace, so a single failed cycle never aborts the recording
session. -/
theorem acquisition_failure_contained (t1 t2 : List SyncCycle) (c : SyncCycle)
    (h : c.1 = TofOutcome.exn ∨ c.2 = UsbOutcome.exn) :
    cycleMatched c = false ∧
    (runSync (t1 ++ c :: t2)).frameCount = matchedCount t1 + matchedCount t2 ∧
    (runSync (t1 ++ c :: t2)).syncFailures
      = failedCount t1 + 1 + failedCount t2 := by
  have hm : cycleMatched c = false := by
    obtain ⟨a, b⟩ := c
    rcases h with h | h
    · simp only at h
      subst h
      simp [cycleMatched, tofSucc, acquireTofSync]
    · simp only at h
      subst h
      simp [cycleMatched, usbSucc, usbAcq]
  obtain ⟨h1, h2, _⟩ := runSync_counts (t1 ++ c :: t2)
  refine ⟨hm, ?_, ?_⟩
  · rw [h1]
    simp [matchedCount, List.countP_append, List.countP_cons, hm]
  · rw [h2]
    simp [failedCount, List.countP_append, List.countP_cons, hm]
    omega

/-- Witness for claim C5 at a concrete trace around a cycle whose ToF
acquisition raised. -/
theorem acquisition_failure_contained_witness :
    cycleMatched demoCycleExn = false ∧
    (runSync ([demoCycleMatched] ++ demoCycleExn :: [demoCycleMatched])).frameCount
      = matchedCount [demoCycleMatched] + matchedCount [demoCycleMatched] ∧
    (runSync ([demoCycleMatched] ++ demoCycleExn :: [demoCycleMatched])).syncFailures
      = failedCount [demoCycleMatched] + 1 + failedCount [demoCycleMatched] :=
  acquisition_failure_contained [demoCycleMatched] [demoCycleMatched]
    demoCycleExn (Or.inl rfl)

/-- Claim C4: the session summary reports the average frame rate as
matched over elapsed exactly when elapsed is positive and zero otherwise,
and the match success ratio as a percentage when at least one cycle ran
and zero when no cycles ran; both fields are total. -/
theorem session_summary_formulas (t : List SyncCycle) (elapsed : ℚ) :
    (0 < elapsed →
      (mkSummary (runSync t) elapsed).fps
        = ((runSync t).frameCount : ℚ) / elapsed) ∧
    (¬ 0 < elapsed → (mkSummary (runSync t) elapsed).fps = 0) ∧
    (t ≠ [] →
      (mkSummary (runSync t) elapsed).syncSuccessRate
        = (((runSync t).frameCount : ℚ)
            / (((runSync t).frameCount : ℚ)
                + ((runSync t).syncFailures : ℚ))) * 100) ∧
    (t = [] → (mkSummary (runSync t) elapsed).syncSuccessRate = 0) := by
  refine ⟨?_, ?_, ?_, ?_⟩
  · intro h; simp [mkSummary, h]
  · intro h; simp [mkSummary, h]
  · intro h
    have hpos : 0 < (runSync t).frameCount + (runSync t).syncFailures := by
      rw [runSync_total t]
      exact List.length_pos.mpr h
    simp [mkSummary, hpos]
  · intro h
    subst h
    simp [mkSummary, runSync, runSyncFrom, initLoopState]

/-- Witness for claim C4 at a concrete trace and elapsed time 2. -/
theorem session_summary_formulas_witness :
    (mkSummary (runSync demoTrace) 2).fps
      = ((runSync demoTrace).frameCount : ℚ) / 2 ∧
    (mkSummary (runSync demoTrace) 2).syncSuccessRate
      = (((runSync demoTrace).frameCount : ℚ)
          / (((runSync demoTrace).frameCount : ℚ)
              + ((runSync demoTrace).syncFailures : ℚ))) * 100 :=
  ⟨(session_summary_formulas demoTrace 2).1 (by norm_num),
   (session_summary_formulas demoTrace 2).2.2.1 (by decide)⟩

/-- Claim C3 counterexample: with the scenario maximum distance 4000, the
conversion maps 4000 to 250, not 255, and an input of 4096 wraps around to
0 instead of clipping, so the conversion is not the claimed clipping
rescale of the interval from 0 to the maximum distance onto 0..255. -/
theorem to8bit_counterexample :
    to8bit 4000 = 250 ∧ to8bit 4000 ≠ 255 ∧ to8bit 4096 = 0 := by
  decide

/-- Claim C3 amended: the conversion divides the raw sample by 16 and
truncates into a byte: it is monotone on inputs up to 4095, maps 0 to 0
and 4095 to 255, maps the scenario input 2000 to 125 (three below the
claimed approximate 128), and wraps modulo 256 above 4095 instead of
clipping; in particular 4000 maps to 250, not 255. -/
theorem to8bit_div16_props (v w : Nat) (hvw : v ≤ w) (hw : w ≤ 4095) :
    to8bit v ≤ to8bit w ∧ to8bit v = v / 16 ∧ to8bit 0 = 0 ∧
    to8bit 4095 = 255 ∧ to8bit 2000 = 125 ∧ to8bit 4096 = 0 ∧
    to8bit 4000 = 250 := by
  have hv16 : v / 16 < 256 := by omega
  have hw16 : w / 16 < 256 := by omega
  refine ⟨?_, ?_, by decide, by decide, by decide, by decide, by decide⟩
  · rw [to8bit, to8bit, Nat.mod_eq_of_lt hv16, Nat.mod_eq_of_lt hw16]
    exact Nat.div_le_div_right hvw
  · rw [to8bit]
    exact Nat.mod_eq_of_lt hv16

/-- Witness for the amended claim C3 at inputs 1000 and 2000. -/
theorem to8bit_div16_props_witness :
    to8bit 1000 ≤ to8bit 2000 ∧ to8bit 1000 = 1000 / 16 ∧ to8bit 0 = 0 ∧
    to8bit 4095 = 255 ∧ to8bit 2000 = 125 ∧ to8bit 4096 = 0 ∧
    to8bit 4000 = 250 :=
  to8bit_div16_props 1000 2000 (by decide) (by decide)

/-- Claim C6 evaluated at the failing input: in the ToF recording thread,
after a first successful frame opens the writer, an exception in a later
iteration reaches the except handler and the run ends with the writer
still open and zero release calls — not the exactly-once close the claim
requires — while a trace that ends without raising releases exactly
once. -/
theorem tofThread_writer_leak :
    (runTofThread [TofThreadEvent.frame, TofThreadEvent.raiseExc]).writerOpen
      = true ∧
    (runTofThread [TofThreadEvent.frame, TofThreadEvent.raiseExc]).releaseCalls
      = 0 ∧
    (runTofThread [TofThreadEvent.frame, TofThreadEvent.raiseExc]).errored
      = true ∧
    (runTofThread [TofThreadEvent.frame, TofThreadEvent.miss]).releaseCalls
      = 1 := by
  decide

/-- Claim C7 counterexample: closing a freshly initialized recorder twice
changes the state again and makes a second round of stop, close and
release calls on the same handles, so the shutdown sequence is not
idempotent. -/
theorem close_twice_counterexample :
    closeRecorder (closeRecorder demoRecorder) ≠ closeRecorder demoRecorder ∧
    (closeRecorder (closeRecorder demoRecorder)).tofCamera = some ⟨2, 2⟩ ∧
    (closeRecorder (closeRecorder demoRecorder)).usbCamera = some ⟨2⟩ := by
  decide

/-- Claim C7 amended: a second close raises no error and preserves the
own attributes of the recorder (recording flag cleared, handle presence
unchanged), but because the handle attributes are never cleared it
re-invokes stop and close on the ToF camera and release on the USB camera,
so each present source receives the shutdown calls twice rather than
once. -/
theorem close_twice_effects (s : RecorderState) :
    (closeRecorder (closeRecorder s)).isRecording = false ∧
    (closeRecorder (closeRecorder s)).tofCamera.isSome
      = (closeRecorder s).tofCamera.isSome ∧
    (closeRecorder (closeRecorder s)).usbCamera.isSome
      = (closeRecorder s).usbCamera.isSome ∧
    (∀ h, s.tofCamera = some h →
      (closeRecorder (closeRecorder s)).tofCamera
        = some ⟨h.stopCalls + 2, h.closeCalls + 2⟩) ∧
    (∀ h, s.usbCamera = some h →
      (closeRecorder (closeRecorder s)).usbCamera
        = some ⟨h.releaseCalls + 2⟩) := by
  obtain ⟨r, tof, usb⟩ := s
  refine ⟨rfl, ?_, ?_, ?_, ?_⟩
  · cases tof <;> simp [closeRecorder, stopRecording]
  · cases usb <;> simp [closeRecorder, stopRecording]
  · intro h hh
    cases tof with
    | none => exact absurd hh (by simp)
    | some h0 =>
      simp only [Option.some.injEq] at hh
      subst hh
      simp [closeRecorder, stopRecording]
  · intro h hh
    cases usb with
    | none => exact absurd hh (by simp)
    | some h0 =>
      simp only [Option.some.injEq] at hh
      subst hh
      simp [closeRecorder, stopRecording]

/-- Witness for the amended claim C7 at a recorder with both handles
present and untouched. -/
theorem close_twice_effects_witness :
    (closeRecorder (closeRecorder demoRecorder)).isRecording = false ∧
    (closeRecorder (closeRecorder demoRecorder)).tofCamera = some ⟨2, 2⟩ ∧
    (closeRecorder (closeRecorder demoRecorder)).usbCamera = some ⟨2⟩ :=
  ⟨(close_twice_effects demoRecorder).1,
   (close_twice_effects demoRecorder).2.2.2.1 ⟨0, 0⟩ rfl,
   (close_twice_effects demoRecorder).2.2.2.2 ⟨0⟩ rfl⟩

/-- Claim C8 evaluated at the failing input: when requestFrame hands over
a frame object that fails the RawData type check, the sync loop leaves it
unreleased (zero releaseFrame calls), while the RawData path releases
exactly once; the claim requires exactly one release on every acquiring
path. -/
theorem wrongType_frame_not_released :
    (acquireTofSync TofOutcome.wrongType).frameAcquired = true ∧
    (acquireTofSync TofOutcome.wrongType).releaseCalls = 0 ∧
    (acquireTofSync (TofOutcome.rawData [500, 4000])).releaseCalls = 1 := by
  decide

/-- Claim C9: when the ToF camera opened and started but the USB camera
fails to open, initialization surfaces the USB error as fatal after
stopping and closing the already-opened ToF camera exactly once. -/
theorem init_usb_failure_releases_tof (env : InitEnv)
    (h1 : env.tofOpenRet = 0) (h2 : env.tofStartRet = 0)
    (h3 : env.usbOpens = false) :
    (initCameras env).surfaced = some InitError.usbOpenFailed ∧
    (initCameras env).tofStopCalls = 1 ∧
    (initCameras env).tofCloseCalls = 1 := by
  simp [initCameras, h1, h2, h3]

/-- Witness for claim C9 at the environment where both ToF calls succeed
and the USB camera does not open. -/
theorem init_usb_failure_releases_tof_witness :
    (initCameras ⟨0, 0, false⟩).surfaced = some InitError.usbOpenFailed ∧
    (initCameras ⟨0, 0, false⟩).tofStopCalls = 1 ∧
    (initCameras ⟨0, 0, false⟩).tofCloseCalls = 1 :=
  init_usb_failure_releases_tof ⟨0, 0, false⟩ rfl rfl rfl

lemma probeAppends_iff (d : ProbeDevice) :
    probeAppends d = true ↔
      d.opened = true ∧ d.readRet = true ∧ d.frameSome = true := by
  obtain ⟨o, r, f⟩ := d
  cases o <;> cases r <;> cases f <;> simp [probeAppends]

lemma detectFold (env : Nat → ProbeDevice) (l : List Nat) :
    ∀ acc : List Nat × List Nat,
      l.foldl
        (fun acc i =>
          (if probeAppends (env i) then acc.1 ++ [i] else acc.1, acc.2 ++ [i]))
        acc
      = (acc.1 ++ l.filter (fun i => probeAppends (env i)), acc.2 ++ l) := by
  induction l with
  | nil => intro acc; simp
  | cons x xs ih =>
    intro acc
    rw [List.foldl_cons, ih, List.filter_cons]
    cases h : probeAppends (env x) <;> simp [h]

lemma detectCameras_eq (env : Nat → ProbeDevice) (maxIndex : Nat) :
    detectCameras env maxIndex
      = ((List.range maxIndex).filter (fun i => probeAppends (env i)),
         List.range maxIndex) := by
  rw [detectCameras, detectFold]
  simp

/-- Claim C10: camera auto-detection returns a strictly increasing list of
indices below the probe bound; an index is listed exactly when its device
opened and delivered a non-empty frame on the probe read; and every probed
index is released exactly once, unprobed indices never. -/
theorem detect_cameras_spec (env : Nat → ProbeDevice) (maxIndex i : Nat) :
    (detectCameras env maxIndex).1.Sorted (· < ·) ∧
    (i ∈ (detectCameras env maxIndex).1 ↔
      i < maxIndex ∧ (env i).opened = true ∧ (env i).readRet = true ∧
        (env i).frameSome = true) ∧
    (detectCameras env maxIndex).2.count i
      = if i < maxIndex then 1 else 0 := by
  rw [detectCameras_eq]
  refine ⟨?_, ?_, ?_⟩
  · exact (List.pairwise_lt_range maxIndex).filter _
  · rw [List.mem_filter, List.mem_range, probeAppends_iff]
  · by_cases h : i < maxIndex
    · rw [if_pos h]
      exact List.count_eq_one_of_mem (List.nodup_range maxIndex)
        (List.mem_range.mpr h)
    · rw [if_neg h]
      exact List.count_eq_zero_of_not_mem (fun hm => h (List.mem_range.mp hm))

/-- Witness for claim C10 at the demo probe environment with three probed
indices. -/
theorem detect_cameras_spec_witness :
    (detectCameras demoProbeEnv 3).1.Sorted (· < ·) ∧
    (2 ∈ (detectCameras demoProbeEnv 3).1 ↔
      2 < 3 ∧ (demoProbeEnv 2).opened = true ∧ (demoProbeEnv 2).readRet = true ∧
        (demoProbeEnv 2).frameSome = true) ∧
    (detectCameras demoProbeEnv 3).2.count 2 = if 2 < 3 then 1 else 0 :=
  detect_cameras_spec demoProbeEnv 3 2

end ArducamRecord
